import Mathlib

/-!
Verification development for the fakts advertised-discovery engine
(`fakts/grants/remote/discovery/advertised.py`).

The Python source is shallowly embedded: pydantic models become
structures, the `alisten` receive loop becomes a pure function over a
finite prefix of received datagrams, and the external library calls
(`str(data, "utf8")`, `json.loads`, pydantic validation of `Beacon`,
`discover_url`) are represented by their observable outcomes — the
UTF-8 decode result of a datagram is an `Option String`, and the JSON
parser and the endpoint probe are function parameters.
-/

namespace Fakts

/-- `Beacon` (advertised.py, lines 56-61): a pydantic model with a single
required field `url`. -/
structure Beacon where
  url : String
deriving DecidableEq, Repr

/-- `ListenBinding` (advertised.py, lines 48-53): address defaults to the
empty string, port to 45678, magic_phrase to "beacon-fakts". -/
structure ListenBinding where
  address : String := ""
  port : Nat := 45678
  magic_phrase : String := "beacon-fakts"
deriving DecidableEq, Repr

/-- A JSON value, the result type of `json.loads`. -/
inductive Json where
  | obj (fields : List (String × Json))
  | arr (elems : List Json)
  | str (s : String)
  | num (n : Int)
  | bool (b : Bool)
  | null

/-- The Python exceptions that can escape the body of the `alisten`
receive loop. -/
inductive PyError where
  /-- `UnicodeDecodeError`, raised by `str(data, "utf8")` on non-UTF-8 bytes. -/
  | unicodeDecodeError
  /-- `json.JSONDecodeError`, raised by `json.loads` on unparseable text. -/
  | jsonDecodeError
  /-- pydantic `ValidationError`, raised by `Beacon(**d)` when the dict `d`
  has no (string-coercible) `url` entry. -/
  | validationError
  /-- `TypeError`, raised by `Beacon(**x)` when `x` is not a mapping. -/
  | typeError
deriving DecidableEq, Repr

/-- `Beacon(**endpoint)` (advertised.py, line 111): pydantic construction
from the value returned by `json.loads`. A non-object raises `TypeError`
(`**` requires a mapping). An object validates field `url : str`; pydantic
v1 coerces numeric values to `str`; a missing or non-coercible `url`
raises `ValidationError`. Extra keys are ignored (pydantic v1 default). -/
def beaconOfJson : Json → Except PyError Beacon
  | .obj fields =>
      match fields.lookup "url" with
      | some (.str u) => .ok ⟨u⟩
      | some (.num n) => .ok ⟨toString n⟩
      | some _ => .error .validationError
      | none => .error .validationError
  | _ => .error .typeError

/-- Python's `data.startswith(magic)`: comparison of the leading
characters (kept over `String.data` so it evaluates by kernel
reduction). -/
def pyStartsWith (data magic : String) : Bool :=
  magic.data.isPrefixOf data.data

/-- Python's `data[n:]` on a string: drop the first `n` characters. -/
def pySliceFrom (data : String) (n : Nat) : String :=
  ⟨data.data.drop n⟩

/-- Python's `len` on a string: the number of characters. -/
def pyLen (s : String) : Nat :=
  s.data.length

/-- Outcome of processing one datagram in the `alisten` receive loop. -/
inductive StepResult where
  /-- a `Beacon` was yielded; the loop continues -/
  | yielded (b : Beacon)
  /-- the datagram was logged and skipped; the loop continues -/
  | skipped
  /-- an exception propagates out of the loop; the generator terminates -/
  | raised (e : PyError)
deriving DecidableEq, Repr

/-- The body of the `while True` loop of `alisten` (advertised.py,
lines 103-127), for one received datagram. The datagram is given by its
UTF-8 decode result (`none` = `str(data, "utf8")` raised
`UnicodeDecodeError`); `jsonLoads` stands for `json.loads`.

Control flow of the source:
- decode failure: the handler at line 124 catches `UnicodeEncodeError`,
  but `str(data, "utf8")` raises `UnicodeDecodeError`, which is not a
  subclass of it — the error always propagates, whatever `strict` is;
- text not starting with `bind.magic_phrase`: logged and skipped;
- magic-phrase text whose remainder `json.loads` rejects: the handler at
  line 114 catches `json.JSONDecodeError`; skipped, or re-raised when
  `strict`;
- remainder that parses but fails `Beacon(**...)`: `ValidationError` /
  `TypeError` is not a `json.JSONDecodeError`, so it propagates, whatever
  `strict` is;
- otherwise the beacon is yielded. -/
def processDatagram (magic : String) (strict : Bool)
    (jsonLoads : String → Except Unit Json)
    (dgram : Option String) : StepResult :=
  match dgram with
  | none => .raised .unicodeDecodeError
  | some data =>
      if pyStartsWith data magic then
        match jsonLoads (pySliceFrom data (pyLen magic)) with
        | .error _ => if strict then .raised .jsonDecodeError else .skipped
        | .ok j =>
            match beaconOfJson j with
            | .ok b => .yielded b
            | .error e => .raised e
      else
        .skipped

/-- The `alisten` generator (advertised.py, lines 64-137) run over a
finite prefix of received datagrams: returns the beacons yielded so far,
and `some e` when an exception `e` terminated the generator before the
prefix was exhausted. -/
def alistenRun (bind : ListenBinding) (strict : Bool)
    (jsonLoads : String → Except Unit Json) :
    List (Option String) → List Beacon × Option PyError
  | [] => ([], none)
  | d :: rest =>
      match processDatagram bind.magic_phrase strict jsonLoads d with
      | .yielded b =>
          let (bs, e) := alistenRun bind strict jsonLoads rest
          (b :: bs, e)
      | .skipped => alistenRun bind strict jsonLoads rest
      | .raised e => ([], some e)

/-- The deduplication loop of `alisten_pure` (advertised.py, lines
169-174): `seen` is the `already_detected` set, a beacon is yielded only
when its `url` is not in it. -/
def dedupByUrl (seen : List String) : List Beacon → List Beacon
  | [] => []
  | b :: rest =>
      if b.url ∈ seen then dedupByUrl seen rest
      else b :: dedupByUrl (b.url :: seen) rest

/-- `alisten_pure` (advertised.py, lines 140-176): wraps `alisten` with
a fresh `already_detected` set; an exception from `alisten` propagates
through the `async for` unchanged. -/
def alisten_pureRun (bind : ListenBinding) (strict : Bool)
    (jsonLoads : String → Except Unit Json)
    (dgrams : List (Option String)) : List Beacon × Option PyError :=
  (dedupByUrl [] (alistenRun bind strict jsonLoads dgrams).1,
   (alistenRun bind strict jsonLoads dgrams).2)

/-- `FaktsEndpoint` (fakts/grants/remote/types.py, lines 6-22): pydantic
model of a resolved endpoint, all fields defaulted or optional. -/
structure FaktsEndpoint where
  base_url : String := "http://localhost:8000/f/"
  name : String := "Helper"
  description : Option String := none
  retrieve_url : Option String := none
  claim_url : Option String := none
  version : Option String := none
deriving DecidableEq, Repr

/-- Modelled from the spec: `fakts/grants/remote/models.py` (which defines
`FaktsRequest`) is not part of the sources; per the spec's data model, a
request is an "opaque context object threaded through demand/claim calls
... passed by reference, never mutated by the protocol engine itself". -/
structure FaktsRequest where
  context : List (String × String) := []
deriving DecidableEq, Repr

/-- An exception raised by `discover_url` and caught by the blanket
`except Exception` of `FirstAdvertisedDiscovery.adiscover`
(advertised.py, line 239). -/
structure ProbeError where
  msg : String := ""
deriving DecidableEq, Repr

/-- How a call to `FirstAdvertisedDiscovery.adiscover` can end. -/
inductive DiscoverOutcome where
  /-- a probe succeeded; its endpoint is returned -/
  | found (e : FaktsEndpoint)
  /-- the beacon sequence ended; `DiscoveryError("Could not find any
  endpoint")` is raised (advertised.py, line 243) -/
  | discoveryError
  /-- the beacon sequence terminated with an exception, which the
  `async for` of `adiscover` propagates unchanged -/
  | upstreamError (e : PyError)
deriving DecidableEq, Repr

/-- The `async for` loop of `FirstAdvertisedDiscovery.adiscover`
(advertised.py, lines 235-243), instrumented with the list of urls the
probe (`discover_url`) was invoked on. Input: the beacons yielded by
`alisten_pure` and how the beacon sequence then terminated (`none` =
ended, `some e` = raised `e`). Each beacon's url is probed in order; the
first success returns its endpoint at once; a probe failure is logged
and the loop continues. -/
def adiscoverTrace (probe : String → Except ProbeError FaktsEndpoint) :
    List Beacon → Option PyError → List String × DiscoverOutcome
  | [], none => ([], .discoveryError)
  | [], some e => ([], .upstreamError e)
  | b :: rest, e? =>
      match probe b.url with
      | .ok ep => ([b.url], .found ep)
      | .error _ =>
          let (t, r) := adiscoverTrace probe rest e?
          (b.url :: t, r)

/-- `FirstAdvertisedDiscovery` (advertised.py, lines 179-211): the
configuration fields of the discovery (pydantic v1 infers the untyped
`broadcast_port`, `magic_phrase` and `bind` as fields with these
defaults). `ssl_context` is an opaque external object. -/
structure FirstAdvertisedDiscovery where
  broadcast_port : Nat := 45678
  magic_phrase : String := "beacon-fakts"
  bind : String := ""
  strict : Bool := false
  discovered_endpoints : List (String × FaktsEndpoint) := []
  ssl_context : Unit := ()
  allow_appending_slash : Bool := true
  auto_protocols : List String := []
  timeout : Nat := 3
deriving DecidableEq, Repr

/-- The `ListenBinding` that `adiscover` constructs from its own fields
(advertised.py, lines 230-234). -/
def FirstAdvertisedDiscovery.binding (d : FirstAdvertisedDiscovery) :
    ListenBinding :=
  { address := d.bind, port := d.broadcast_port, magic_phrase := d.magic_phrase }

/-- `FirstAdvertisedDiscovery.adiscover` (advertised.py, lines 213-243):
listens via `alisten_pure` on the constructed binding with the
configured strictness, probes each deduplicated beacon in order, and
returns the first successfully probed endpoint. The `request` argument
is not used (its docstring says so). The received datagrams and the two
external calls (`json.loads`, `discover_url`) are parameters. -/
def FirstAdvertisedDiscovery.adiscover (d : FirstAdvertisedDiscovery)
    (request : FaktsRequest)
    (probe : String → Except ProbeError FaktsEndpoint)
    (jsonLoads : String → Except Unit Json)
    (dgrams : List (Option String)) : DiscoverOutcome :=
  let (bs, e?) := alisten_pureRun d.binding d.strict jsonLoads dgrams
  (adiscoverTrace probe bs e?).2

/-- How one `alisten` session can terminate. -/
inductive TermCause where
  /-- `s.bind(...)` (advertised.py, line 93) raised; this happens before
  the `try`, so no cleanup runs -/
  | bindError
  /-- `asyncio.CancelledError` delivered at a suspension point
  (e.g. mid-receive at `await read_queue.get()`) -/
  | cancelled
  /-- an exception `e` escaped the receive loop -/
  | loopError (e : PyError)
deriving DecidableEq, Repr

/-- How often each of `s.close()` and `transport.close()` ran. -/
structure CloseCount where
  socketCloses : Nat
  transportCloses : Nat
deriving DecidableEq, Repr

/-- The cleanup paths of `alisten` (advertised.py, lines 92-137). The
socket is created and bound before the `try`, so a bind failure closes
nothing. The `except asyncio.CancelledError` handler (lines 129-133)
closes transport and socket and re-raises; the `finally` (lines 134-137)
closes both again on every exit of the `try`. Each count is the
handler's closes plus the finally's. -/
def alistenCloses : TermCause → CloseCount
  | .bindError => { socketCloses := 0, transportCloses := 0 }
  | .cancelled => { socketCloses := 1 + 1, transportCloses := 1 + 1 }
  | .loopError _ => { socketCloses := 0 + 1, transportCloses := 0 + 1 }

/-- The deduplication behaviour as the spec words it: yield exactly the
beacons whose url has not appeared earlier, preserving arrival order —
i.e. keep each first occurrence and drop every later beacon carrying an
already-seen url. -/
def firstByUrl : List Beacon → List Beacon
  | [] => []
  | b :: rest => b :: firstByUrl (rest.filter fun q => decide (q.url ≠ b.url))
termination_by l => l.length
decreasing_by
  simp only [List.length_cons]
  exact Nat.lt_succ_of_le (List.length_filter_le _ _)

/-! Sample instantiations of the external calls, used to evaluate the
embedding at concrete inputs: a JSON parser defined on the remainder
strings the concrete datagrams below produce, and probes that fail or
succeed on chosen urls. -/

/-- A concrete stand-in for `json.loads`, defined on the remainders of
the sample datagrams: `"good1"`/`"good2"` parse to well-formed beacon
objects, `"obj-no-url"` to an object without a `url` key, `"arr"` to a
JSON array, everything else fails to parse. -/
def jsonLoadsEx : String → Except Unit Json :=
  fun s =>
    if s = "good1" then .ok (.obj [("url", .str "http://u1")])
    else if s = "good2" then .ok (.obj [("url", .str "http://u2")])
    else if s = "obj-no-url" then .ok (.obj [])
    else if s = "arr" then .ok (.arr [])
    else .error ()

/-- A concrete probe that succeeds exactly on `"http://u2"`. -/
def probeEx : String → Except ProbeError FaktsEndpoint :=
  fun u =>
    if u = "http://u2" then .ok { base_url := "http://u2" }
    else .error { msg := "no" }

/-- A concrete probe that fails on every url. -/
def probeFailEx : String → Except ProbeError FaktsEndpoint :=
  fun _ => .error { msg := "no" }

/-! ## Claims -/

/-- C1: `adiscover` probes beacons strictly in arrival order and returns
the endpoint of the first beacon whose probe succeeds; failed probes are
logged and the loop continues; the probe is never invoked for any beacon
after the first success. Formally: if every beacon before position `k`
fails its probe and the beacon `bk` at position `k` probes successfully
to `ep`, then the probe is invoked exactly on the urls of the first
`k + 1` beacons, in order, and the outcome is `found ep`. -/
theorem adiscover_first_success_wins
    (probe : String → Except ProbeError FaktsEndpoint)
    (bs : List Beacon) (e? : Option PyError)
    (k : Nat) (bk : Beacon) (ep : FaktsEndpoint)
    (hfail : ∀ b ∈ bs.take k, (probe b.url).toOption = none)
    (hbk : bs[k]? = some bk)
    (hok : probe bk.url = .ok ep) :
    adiscoverTrace probe bs e? = ((bs.take (k + 1)).map Beacon.url, .found ep) := by
  induction bs generalizing k with
  | nil => simp at hbk
  | cons b rest ih =>
    cases k with
    | zero =>
      simp only [List.getElem?_cons_zero, Option.some.injEq] at hbk
      subst hbk
      cases e? <;> simp [adiscoverTrace, hok]
    | succ k =>
      have hb : (probe b.url).toOption = none := hfail b (by simp)
      obtain ⟨er, her⟩ : ∃ er, probe b.url = .error er := by
        cases h : probe b.url with
        | ok v => rw [h] at hb; simp [Except.toOption] at hb
        | error er => exact ⟨er, rfl⟩
      have hrest := ih k (fun b' hb' => hfail b' (by simp [hb'])) (by simpa using hbk)
      cases e? <;> simp [adiscoverTrace, her, hrest]

/-- C1 witness: beacons `[u1, u2, u3]` where `u1`'s probe fails and
`u2`'s succeeds — only `u1` and `u2` are probed, in order, and `u2`'s
endpoint is returned; `u3` is never probed. -/
theorem adiscover_first_success_wins_witness :
    adiscoverTrace probeEx [⟨"http://u1"⟩, ⟨"http://u2"⟩, ⟨"http://u3"⟩] none =
      (["http://u1", "http://u2"], .found { base_url := "http://u2" }) :=
  adiscover_first_success_wins probeEx
    [⟨"http://u1"⟩, ⟨"http://u2"⟩, ⟨"http://u3"⟩] none
    1 ⟨"http://u2"⟩ { base_url := "http://u2" }
    (by decide) (by decide) (by rfl)

/-- C2 counterexample: when `alisten` terminates by cancellation, the
`except asyncio.CancelledError` handler closes socket and transport and
re-raises through the `finally`, which closes both again — each is
closed twice, not exactly once as the claim states. -/
theorem alisten_cancelled_closes_twice :
    (alistenCloses .cancelled).socketCloses = 2 ∧
    (alistenCloses .cancelled).transportCloses = 2 ∧
    ¬ (alistenCloses .cancelled).socketCloses = 1 ∧
    ¬ (alistenCloses .cancelled).transportCloses = 1 := by decide

/-- C2 (amended): when `alisten` terminates via an error escaping the
receive loop, socket and transport are each closed exactly once; on
cancellation each close is invoked twice (the handler's close plus the
`finally`'s); a failure of the initial bind, which happens before the
`try`, closes neither. -/
theorem alistenCloses_per_cause :
    (∀ e, alistenCloses (.loopError e) = { socketCloses := 1, transportCloses := 1 }) ∧
    alistenCloses .cancelled = { socketCloses := 2, transportCloses := 2 } ∧
    alistenCloses .bindError = { socketCloses := 0, transportCloses := 0 } :=
  ⟨fun _ => rfl, rfl, rfl⟩

/-- C3: a datagram that starts with the magic phrase but whose remainder
`json.loads` rejects is skipped with `strict = false` (the run continues
on the remaining datagrams unchanged), and with `strict = true` the
decode error propagates and the run terminates with it, yielding
nothing further. -/
theorem alisten_malformed_json_strictness
    (bind : ListenBinding) (jsonLoads : String → Except Unit Json)
    (data : String) (ds : List (Option String))
    (hmagic : pyStartsWith data bind.magic_phrase = true)
    (hjson : jsonLoads (pySliceFrom data (pyLen bind.magic_phrase)) = .error ()) :
    alistenRun bind false jsonLoads (some data :: ds) =
      alistenRun bind false jsonLoads ds ∧
    alistenRun bind true jsonLoads (some data :: ds) =
      ([], some .jsonDecodeError) := by
  constructor <;> simp [alistenRun, processDatagram, hmagic, hjson]

/-- C3 witness: the datagram `"beacon-faktsbad"` (magic phrase plus
unparseable remainder) is skipped in lenient mode and terminates the
run with the decode error in strict mode. -/
theorem alisten_malformed_json_strictness_witness :
    alistenRun {} false jsonLoadsEx [some "beacon-faktsbad", some "beacon-faktsgood1"] =
      alistenRun {} false jsonLoadsEx [some "beacon-faktsgood1"] ∧
    alistenRun {} true jsonLoadsEx [some "beacon-faktsbad", some "beacon-faktsgood1"] =
      ([], some .jsonDecodeError) :=
  alisten_malformed_json_strictness {} jsonLoadsEx "beacon-faktsbad"
    [some "beacon-faktsgood1"] (by decide) (by rfl)

/-- Filtering out the urls of `x :: s` is filtering out the urls of `s`
and then the url `x`. -/
theorem filter_url_notMem_cons (x : String) (s : List String) (l : List Beacon) :
    (l.filter fun q => decide (q.url ∉ x :: s)) =
      ((l.filter fun q => decide (q.url ∉ s)).filter fun q => decide (q.url ≠ x)) := by
  induction l with
  | nil => rfl
  | cons b rest ih =>
    simp only [List.filter_cons, List.mem_cons, not_or]
    by_cases h1 : b.url ∈ s
    · simp [h1, ih]
    · by_cases h2 : b.url = x
      · subst h2
        simp [h1, ih]
      · simp [h1, h2, ih]

/-- Running the dedup loop with an already-seen set `seen` is deduping
the input with the beacons carrying urls of `seen` removed. -/
theorem dedupByUrl_eq_firstByUrl_filter (l : List Beacon) (seen : List String) :
    dedupByUrl seen l = firstByUrl (l.filter fun q => decide (q.url ∉ seen)) := by
  induction l generalizing seen with
  | nil => simp [dedupByUrl, firstByUrl]
  | cons b rest ih =>
    rw [dedupByUrl]
    by_cases hb : b.url ∈ seen
    · simp [hb, List.filter_cons, ih]
    · rw [if_neg hb]
      have hcons : ((b :: rest).filter fun q => decide (q.url ∉ seen)) =
          b :: (rest.filter fun q => decide (q.url ∉ seen)) := by
        simp [List.filter_cons, hb]
      rw [hcons]
      simp only [firstByUrl]
      rw [ih (b.url :: seen), filter_url_notMem_cons]

/-- C4: `alisten_pure` yields exactly the beacons whose url has not
appeared earlier in the session, preserving arrival order (`firstByUrl`
is that spec-side description: keep each first occurrence, drop every
later beacon with an already-seen url); the seen-set starts empty for
each run, and the run terminates as `alisten` does. In particular
beacons with urls `[u1, u2, u1, u3]` are yielded as `[u1, u2, u3]`. -/
theorem alisten_pure_yields_first_occurrences
    (bind : ListenBinding) (strict : Bool)
    (jsonLoads : String → Except Unit Json) (dgrams : List (Option String)) :
    alisten_pureRun bind strict jsonLoads dgrams =
      (firstByUrl (alistenRun bind strict jsonLoads dgrams).1,
       (alistenRun bind strict jsonLoads dgrams).2) ∧
    dedupByUrl [] [⟨"u1"⟩, ⟨"u2"⟩, ⟨"u1"⟩, ⟨"u3"⟩] = [⟨"u1"⟩, ⟨"u2"⟩, ⟨"u3"⟩] := by
  refine ⟨?_, by decide⟩
  unfold alisten_pureRun
  rw [dedupByUrl_eq_firstByUrl_filter]
  simp

/-- C5: code bug. The claim (and the spec) say a non-UTF-8 datagram is
logged and skipped in lenient mode; but `str(data, "utf8")` raises
`UnicodeDecodeError` while the handler at advertised.py line 124 catches
`UnicodeEncodeError`, so the error propagates and terminates the
sequence in both modes. Evaluated at the failing input (a non-UTF-8
datagram followed by a valid beacon): the run terminates at once with
the decode error and the valid beacon is never yielded, for
`strict = false` as for `strict = true`. -/
theorem alisten_invalid_utf8_terminates_even_lenient :
    alistenRun {} false jsonLoadsEx [none, some "beacon-faktsgood1"] =
      ([], some .unicodeDecodeError) ∧
    alistenRun {} true jsonLoadsEx [none, some "beacon-faktsgood1"] =
      ([], some .unicodeDecodeError) := by decide

/-- C6 counterexample: the upstream beacon sequence terminates with a
strict-mode decode error after zero successful probes, yet `adiscover`
does not fail with `DiscoveryError` — the `async for` propagates the
decode error itself (there is no handler around the loop at
advertised.py lines 235-243). -/
theorem adiscover_upstream_error_propagates :
    FirstAdvertisedDiscovery.adiscover { strict := true } {} probeFailEx jsonLoadsEx
        [some "beacon-faktsbad"] = .upstreamError .jsonDecodeError ∧
    DiscoverOutcome.upstreamError .jsonDecodeError ≠ .discoveryError := by decide

/-- C6 (amended): if every probe of the yielded beacons fails, then
`adiscover` fails with `DiscoveryError` when the beacon sequence ended
cleanly, and propagates the upstream error when the sequence terminated
with one (e.g. a strict-mode decode error). -/
theorem adiscover_exhaustion
    (probe : String → Except ProbeError FaktsEndpoint) (bs : List Beacon)
    (hfail : ∀ b ∈ bs, (probe b.url).toOption = none) :
    (adiscoverTrace probe bs none).2 = .discoveryError ∧
    ∀ e, (adiscoverTrace probe bs (some e)).2 = .upstreamError e := by
  induction bs with
  | nil => exact ⟨rfl, fun e => rfl⟩
  | cons b rest ih =>
    have hb : (probe b.url).toOption = none := hfail b (by simp)
    obtain ⟨er, her⟩ : ∃ er, probe b.url = .error er := by
      cases h : probe b.url with
      | ok v => rw [h] at hb; simp [Except.toOption] at hb
      | error er => exact ⟨er, rfl⟩
    have hrest := ih (fun b' hb' => hfail b' (by simp [hb']))
    constructor
    · simp [adiscoverTrace, her, hrest.1]
    · intro e
      simp [adiscoverTrace, her, hrest.2 e]

/-- C6 witness: beacons `[u1, u2]`, both probes failing — a cleanly
ended sequence gives `DiscoveryError`, an error-terminated one
propagates the error. -/
theorem adiscover_exhaustion_witness :
    (adiscoverTrace probeFailEx [⟨"http://u1"⟩, ⟨"http://u2"⟩] none).2 =
      .discoveryError ∧
    ∀ e, (adiscoverTrace probeFailEx [⟨"http://u1"⟩, ⟨"http://u2"⟩] (some e)).2 =
      .upstreamError e :=
  adiscover_exhaustion probeFailEx [⟨"http://u1"⟩, ⟨"http://u2"⟩] (by decide)

/-- C7: code bug. The claim (and the spec) say every malformed datagram
is dropped in lenient mode; but only `json.JSONDecodeError` is caught
(advertised.py line 114): a magic-phrase datagram whose remainder is
valid JSON yet not of the Beacon shape raises pydantic
`ValidationError` (object without `url`) or `TypeError` (non-object),
which propagates and terminates the sequence even with
`strict = false`; the following valid beacon is never yielded. -/
theorem alisten_nonbeacon_json_terminates_lenient :
    alistenRun {} false jsonLoadsEx
        [some "beacon-faktsobj-no-url", some "beacon-faktsgood1"] =
      ([], some .validationError) ∧
    alistenRun {} false jsonLoadsEx
        [some "beacon-faktsarr", some "beacon-faktsgood1"] =
      ([], some .typeError) := by decide

/-- C8: a datagram that decodes as UTF-8 but does not start with the
configured magic phrase is logged and skipped, and the run over the
remaining datagrams is unchanged, in strict and lenient mode alike. -/
theorem alisten_non_magic_skipped
    (bind : ListenBinding) (jsonLoads : String → Except Unit Json)
    (data : String)
    (hnm : pyStartsWith data bind.magic_phrase = false) :
    ∀ (strict : Bool) (ds : List (Option String)),
      alistenRun bind strict jsonLoads (some data :: ds) =
        alistenRun bind strict jsonLoads ds := by
  intro strict ds
  simp [alistenRun, processDatagram, hnm]

/-- C8 witness: the datagram `"hello"` does not start with the default
magic phrase and is skipped in strict mode. -/
theorem alisten_non_magic_skipped_witness :
    alistenRun {} true jsonLoadsEx [some "hello", some "beacon-faktsgood1"] =
      alistenRun {} true jsonLoadsEx [some "beacon-faktsgood1"] :=
  alisten_non_magic_skipped {} jsonLoadsEx "hello" (by decide) true
    [some "beacon-faktsgood1"]

/-- C9: the default-constructed `ListenBinding` has address `""` (all
interfaces), port 45678 and magic phrase `"beacon-fakts"`, and the
binding `adiscover` constructs from a default-configured
`FirstAdvertisedDiscovery` is that same binding. -/
theorem default_binding_values :
    ({} : ListenBinding).address = "" ∧
    ({} : ListenBinding).port = 45678 ∧
    ({} : ListenBinding).magic_phrase = "beacon-fakts" ∧
    FirstAdvertisedDiscovery.binding {} = ({} : ListenBinding) :=
  ⟨rfl, rfl, rfl, rfl⟩

/-- C10: `adiscover` never reads its `request` argument — with the same
beacon datagrams, JSON parser and probe behaviour, any two requests
produce the same outcome. -/
theorem adiscover_ignores_request (d : FirstAdvertisedDiscovery)
    (r1 r2 : FaktsRequest)
    (probe : String → Except ProbeError FaktsEndpoint)
    (jsonLoads : String → Except Unit Json)
    (dgrams : List (Option String)) :
    d.adiscover r1 probe jsonLoads dgrams = d.adiscover r2 probe jsonLoads dgrams :=
  rfl

end Fakts
